import Mathlib

/-!
Formal model of the core of the python-seawater library (seawater/gibbs.py and
seawater/gibbs3/absolute_salinity.py), a Python translation of the TEOS-10
Gibbs Sea Water toolbox.

The Gibbs derivative engine is modelled at two complementary levels, both
transcribed from the source:

The batched masking semantics of the engine (the code at the top and the
bottom of the function: the nonzero salinity test, the masking of
nonpositive salinity, the placeholder filling, the derivative-order dispatch
and the all-masked override) is modelled as a computable function over
batches of optional rationals: an element is the triple of optional values
for absolute salinity SA, in-situ temperature t and pressure p at one
position of an already-broadcast batch, where a missing value stands for a
masked or invalid entry.  The per-element output of this level is a single
boolean: whether the engine reports that element of the result as
undefined (masked).  The mask computed by the source never reads the
polynomial values, so this level is exact.

The per-element numeric values of the polynomial branches that the claims
need are modelled as scalar real-valued functions, one per derivative-order
branch, with every polynomial coefficient transcribed literally from the
source.  The term proportional to x2 times the logarithm of x is evaluated
exactly where the source evaluates it (only at strictly positive salinity).

The reference constants of the seawater.constants module (the salinity
scale factor sfac, the standard ocean salinity SSO and the reference heat
capacity cp0) are not part of the given sources, so every definition takes
them as explicit parameters; only the Kelvin offset 273.15 is fixed, since
the specification uses that literal value.
-/

namespace Seawater

/-- One element of an already-broadcast batch: the optional values of SA, t
and p at one position.  A missing component is a masked or invalid input. -/
abbrev BatchElem := Option ℚ × Option ℚ × Option ℚ

/-- A batch of already-conformed (broadcast) inputs to the Gibbs engine. -/
abbrev Batch := List BatchElem

/-- The salinity column of a batch. -/
def saCol (b : Batch) : List (Option ℚ) := b.map (fun e => e.1)

/-- True when some entry of the list is unmasked (models the fact that
numpy's masked all-reduction of an all-masked array is falsy). -/
def anySome (l : List (Option ℚ)) : Bool := l.any (fun x => x.isSome)

/-- Models np.ma.all (SA less-or-equal 0): masked entries are ignored by the
reduction, every unmasked entry must be nonpositive. -/
def allNonpos (l : List (Option ℚ)) : Bool :=
  l.all (fun x => match x with
    | none => true
    | some v => decide (v ≤ 0))

/-- True when some unmasked salinity entry is strictly positive. -/
def anyPosSA (b : Batch) : Bool :=
  (saCol b).any (fun x => match x with
    | none => false
    | some v => decide (0 < v))

/-- The nonzero_SA test of the engine, transcribed from the source:
nonzero_SA is False when the batch is a single unmasked entry that is
nonpositive, or when np.ma.all reports every unmasked salinity nonpositive
(with at least one unmasked entry, since the all-masked reduction is falsy
in numpy); otherwise nonzero_SA is True. -/
def nonzeroSA (b : Batch) : Bool :=
  !((match b with
     | [(some v, _, _)] => decide (v ≤ 0)
     | _ => false)
    || (anySome (saCol b) && allNonpos (saCol b)))

/-- Under nonzero_SA the source masks every nonpositive salinity entry
(np.ma.masked_less_equal); otherwise the salinity entry is left as is. -/
def maskedSAElem (nz : Bool) (sa : Option ℚ) : Option ℚ :=
  match sa with
  | none => none
  | some v => if nz && decide (v ≤ 0) then none else some v

/-- The output mask of one element of the engine result, transcribed from
the mask construction of the source: the element is undefined when the
(possibly additionally masked) salinity is masked, when t or p is masked,
or when the placeholder-filled salinity is strictly negative. -/
def elemMask (nz : Bool) (e : BatchElem) : Bool :=
  let sa := maskedSAElem nz e.1
  sa.isNone || e.2.1.isNone || e.2.2.isNone || decide (sa.getD 0 < 0)

/-- The ten derivative-order triples accepted by the engine's dispatch. -/
def supportedTriples : List (ℕ × ℕ × ℕ) :=
  [(0,0,0), (1,0,0), (0,1,0), (0,0,1), (1,1,0),
   (1,0,1), (0,1,1), (2,0,0), (0,2,0), (0,0,2)]

/-- The masking semantics of the Gibbs derivative engine, transcribed from
the source: the derivative-order dispatch is the source's chain of branch
tests in order; the branches for first salinity derivatives without a
pressure derivative (orders (1,0,0) and (1,1,0)) set all_masked when
nonzero_SA is False, so their whole output is masked; every other branch
reports the elementwise mask; an unsupported triple is the source's raised
error. -/
def gibbsMask (ns nt npr : ℕ) (b : Batch) : Except String (List Bool) :=
  let nz := nonzeroSA b
  if ns = 0 ∧ nt = 0 ∧ npr = 0 then .ok (b.map (elemMask nz))
  else if ns = 1 ∧ nt = 0 ∧ npr = 0 then
    .ok (if nz then b.map (elemMask nz) else b.map (fun _ => true))
  else if ns = 0 ∧ nt = 1 ∧ npr = 0 then .ok (b.map (elemMask nz))
  else if ns = 0 ∧ nt = 0 ∧ npr = 1 then .ok (b.map (elemMask nz))
  else if ns = 1 ∧ nt = 1 ∧ npr = 0 then
    .ok (if nz then b.map (elemMask nz) else b.map (fun _ => true))
  else if ns = 1 ∧ nt = 0 ∧ npr = 1 then .ok (b.map (elemMask nz))
  else if ns = 0 ∧ nt = 1 ∧ npr = 1 then .ok (b.map (elemMask nz))
  else if ns = 2 ∧ nt = 0 ∧ npr = 0 then .ok (b.map (elemMask nz))
  else if ns = 0 ∧ nt = 2 ∧ npr = 0 then .ok (b.map (elemMask nz))
  else if ns = 0 ∧ nt = 0 ∧ npr = 2 then .ok (b.map (elemMask nz))
  else .error "Wrong Combination of order/variables"

/-- Python name resolution for a name read inside a function body: a local
binding shadows a module-level one; a name bound in neither scope raises
NameError.  (The name at issue below is clearly not a Python builtin.) -/
def pyLookup (localNames globalNames : List String) (n : String) :
    Except String Unit :=
  if n ∈ localNames then .ok ()
  else if n ∈ globalNames then .ok ()
  else .error ("NameError: name " ++ n ++ " is not defined")

/-- The names bound in the body of SP_from_Sstar before (and at) its Baltic
overwrite line, transcribed from the source: the four parameters (re-bound
by the broadcast), the salinity anomaly dSA, the open-ocean result SP and
the Baltic helper result SP_baltic. -/
def spFromSstarLocals : List String :=
  ["Sstar", "p", "lon", "lat", "dSA", "SP", "SP_baltic"]

/-- The module-level names of seawater.gibbs (imports, classes and
functions), transcribed from the source file's top level. -/
def gibbsModuleNames : List String :=
  ["division", "np", "cte", "os", "match_args_return", "strip_mask",
   "Dict2Struc", "read_data", "_gibbs", "_entropy_part", "_gibbs_pt0_pt0",
   "_entropy_part_zerop", "_enthalpy_SSO_0_CT25", "_specvol_SSO_0_CT25",
   "_SP_from_SA_Baltic", "_SA_from_SP_Baltic", "_delta_SA",
   "_dsa_add_barrier", "_dsa_add_mean", "entropy", "rho", "cp",
   "helmholtz_energy", "internal_energy", "sound_speed",
   "adiabatic_lapse_rate", "chem_potential_relative", "specvol",
   "conservative_t", "potential_t", "enthalpy", "chem_potential_water",
   "chem_potential_salt", "isochoric_heat_cap", "kappa", "kappa_const_t",
   "pot_rho", "specvol_anom", "alpha_wrt_t", "alpha_wrt_CT", "alpha_wrt_pt",
   "beta_const_t", "beta_const_CT", "beta_const_pt", "osmotic_coefficient",
   "molality", "ionic_strength", "CT_from_pt", "pot_enthalpy_from_pt",
   "pt_from_CT", "t_from_CT", "pt0_from_t", "t_from_entropy",
   "entropy_from_t", "z_from_p", "p_from_z", "grav", "distance",
   "cndr_from_SP", "SP_from_cndr", "SA_from_SP", "SA_from_Sstar",
   "SP_from_SA", "Sstar_from_SA", "SP_from_Sstar", "Sstar_from_SP",
   "SA_Sstar_from_SP", "SA_from_rho", "Gibbs"]

/-- The Baltic overwrite of SP_from_Sstar subscripts SP with the name
indsbaltic; executing that line begins with resolving this name. -/
def spFromSstarBalticOverwrite : Except String Unit :=
  pyLookup spFromSstarLocals gibbsModuleNames "indsbaltic"


/-- Per-element strip_mask helper (array case), transcribed from the
source: salinity entries strictly below zero are masked in place (so the
combined mask covers them), then every masked entry is filled with zero for
the numeric evaluation; the final component is the element's output mask. -/
def stripElem (sa t p : Option ℚ) : ℚ × ℚ × ℚ × Bool :=
  let sa2 := match sa with
    | none => none
    | some v => if v < 0 then none else some v
  (sa2.getD 0, t.getD 0, p.getD 0,
    sa2.isNone || t.isNone || p.isNone)

/-- Modelled from the spec: the Kelvin offset constant of the missing
seawater.constants module; the specification fixes the value 273.15. -/
def Kelvin : ℝ := 273.15

/-- Transcribed from the source: pure-water polynomial of the Gibbs energy branch (0,0,0) of the engine. -/
def g03g000 (y z : ℝ) : ℝ :=
    ( 101.342743139674 + z * ( 100015.695367145 +
    z * ( -2544.5765420363 + z * ( 284.517778446287 +
    z * ( -33.3146754253611 + ( 4.20263108803084 - 0.546428511471039 * z )
    * z ) ) ) ) +
    y * ( 5.90578347909402 + z * ( -270.983805184062 +
    z * ( 776.153611613101 + z * ( -196.51255088122 + ( 28.9796526294175 -
    2.13290083518327 * z ) * z ) ) ) +
    y * ( -12357.785933039 + z * ( 1455.0364540468 +
    z * ( -756.558385769359 + z * ( 273.479662323528 + z *
    ( -55.5604063817218 + 4.34420671917197 * z ) ) ) ) +
    y * ( 736.741204151612 + z * ( -672.50778314507 +
    z * ( 499.360390819152 + z * ( -239.545330654412 + ( 48.8012518593872 -
    1.66307106208905 * z ) * z ) ) ) +
    y * ( -148.185936433658 + z * ( 397.968445406972 +
    z * ( -301.815380621876 + ( 152.196371733841 - 26.3748377232802 * z ) *
    z ) ) +
    y * ( 58.0259125842571 + z * ( -194.618310617595 +
    z * ( 120.520654902025 + z * ( -55.2723052340152 +
    6.48190668077221 * z ) ) ) +
    y * ( -18.9843846514172 + y * ( 3.05081646487967 -
    9.63108119393062 * z ) +
    z * ( 63.5113936641785 + z * ( -22.2897317140459 +
    8.17060541818112 * z ) ) ) ) ) ) ) ) )

/-- Transcribed from the source: saline polynomial of branch (0,0,0); the engine adds the logarithmic term separately, only at strictly positive salinity. -/
def g08g000 (x x2 y z : ℝ) : ℝ :=
    x2 * ( 1416.27648484197 + z * ( -3310.49154044839 +
    z * ( 384.794152978599 + z * ( -96.5324320107458 +
    ( 15.8408172766824 - 2.62480156590992 * z ) * z ) ) ) +
    x * ( -2432.14662381794 + x * ( 2025.80115603697 +
    y * ( 543.835333000098 + y * ( -68.5572509204491 +
    y * ( 49.3667694856254 + y * ( -17.1397577419788 +
    2.49697009569508 * y ) ) ) - 22.6683558512829 * z ) +
    x * ( -1091.66841042967 - 196.028306689776 * y +
    x * ( 374.60123787784 - 48.5891069025409 * x +
    36.7571622995805 * y ) + 36.0284195611086 * z ) +
    z * ( -54.7919133532887 + ( -4.08193978912261 -
    30.1755111971161 * z ) * z ) ) +
    z * ( 199.459603073901 + z * ( -52.2940909281335 +
    ( 68.0444942726459 - 3.41251932441282 * z ) * z ) ) +
    y * ( -493.407510141682 + z * ( -175.292041186547 +
    ( 83.1923927801819 - 29.483064349429 * z ) * z ) +
    y * ( -43.0664675978042 + z * ( 383.058066002476 + z *
    ( -54.1917262517112 + 25.6398487389914 * z ) ) +
    y * ( -10.0227370861875 - 460.319931801257 * z + y *
    ( 0.875600661808945 + 234.565187611355 * z ) ) ) ) )  +
    y * ( 168.072408311545 + z * ( 729.116529735046 +
    z * ( -343.956902961561 + z * ( 124.687671116248 + z *
    ( -31.656964386073 + 7.04658803315449 * z ) ) ) ) +
    y * ( 880.031352997204 + y * ( -225.267649263401 +
    y * ( 91.4260447751259 + y * ( -21.6603240875311 +
    2.13016970847183 * y ) +
    z * ( -297.728741987187 + ( 74.726141138756 -
    36.4872919001588 * z ) * z ) ) +
    z * ( 694.244814133268 + z * ( -204.889641964903 +
    ( 113.561697840594 - 11.1282734326413 * z ) * z ) ) ) +
    z * ( -860.764303783977 + z * ( 337.409530269367 +
    z * ( -178.314556207638 + ( 44.2040358308 -
    7.92001547211682 * z ) * z ) ) ) ) ) )

/-- Transcribed from the source: pure-water polynomial of branch (0,1,0). -/
def g03g010 (y z : ℝ) : ℝ :=
    ( 5.90578347909402 + z * ( -270.983805184062 +
    z * ( 776.153611613101 + z * ( -196.51255088122 +
    ( 28.9796526294175 - 2.13290083518327 * z ) * z ) ) ) +
    y * ( -24715.571866078 + z * ( 2910.0729080936 +
    z * ( -1513.116771538718 + z * ( 546.959324647056 + z *
    ( -111.1208127634436 + 8.68841343834394 * z ) ) ) ) +
    y * ( 2210.2236124548363 + z * ( -2017.52334943521 +
    z * ( 1498.081172457456 + z * ( -718.6359919632359 +
    ( 146.4037555781616 - 4.9892131862671505 * z ) * z ) ) ) +
    y * ( -592.743745734632 + z * ( 1591.873781627888 +
    z * ( -1207.261522487504 + ( 608.785486935364 -
    105.4993508931208 * z ) * z ) ) +
    y * ( 290.12956292128547 + z * ( -973.091553087975 +
    z * ( 602.603274510125 + z * ( -276.361526170076 +
    32.40953340386105 * z ) ) ) +
    y * ( -113.90630790850321 + y * ( 21.35571525415769 -
    67.41756835751434 * z ) +
    z * ( 381.06836198507096 + z * ( -133.7383902842754 +
    49.023632509086724 * z ) ) ) ) ) ) ) )

/-- Transcribed from the source: saline polynomial of branch (0,1,0); the logarithmic term is added separately by the engine. -/
def g08g010 (x x2 y z : ℝ) : ℝ :=
    x2 * ( 168.072408311545 + z * ( 729.116529735046 +
    z * ( -343.956902961561 + z * ( 124.687671116248 + z *
    ( -31.656964386073 + 7.04658803315449 * z ) ) ) ) +
    x * ( -493.407510141682 + x * ( 543.835333000098 + x *
    ( -196.028306689776 + 36.7571622995805 * x ) +
    y * ( -137.1145018408982 + y * ( 148.10030845687618 + y *
    ( -68.5590309679152 + 12.4848504784754 * y ) ) ) -
    22.6683558512829 * z ) + z * ( -175.292041186547 +
    ( 83.1923927801819 - 29.483064349429 * z ) * z ) +
    y * ( -86.1329351956084 + z * ( 766.116132004952 + z *
    ( -108.3834525034224 + 51.2796974779828 * z ) ) +
    y * ( -30.0682112585625 - 1380.9597954037708 * z + y *
    ( 3.50240264723578 + 938.26075044542 * z ) ) ) ) +
    y * ( 1760.062705994408 + y * ( -675.802947790203 +
    y * ( 365.7041791005036 + y * ( -108.30162043765552 +
    12.78101825083098 * y ) +
    z * ( -1190.914967948748 + ( 298.904564555024 -
    145.9491676006352 * z ) * z ) ) +
    z * ( 2082.7344423998043 + z * ( -614.668925894709 +
    ( 340.685093521782 - 33.3848202979239 * z ) * z ) ) ) +
    z * ( -1721.528607567954 + z * ( 674.819060538734 +
    z * ( -356.629112415276 + ( 88.4080716616 -
    15.84003094423364 * z ) * z ) ) ) ) )

/-- Transcribed from the source: pure-water polynomial of branch (0,2,0). -/
def g03g020 (y z : ℝ) : ℝ :=
    ( -24715.571866078 + z * ( 2910.0729080936 + z *
    ( -1513.116771538718 + z * ( 546.959324647056 + z *
    ( -111.1208127634436 + 8.68841343834394 * z ) ) ) ) +
    y * ( 4420.4472249096725 + z * ( -4035.04669887042 +
    z * ( 2996.162344914912 + z * ( -1437.2719839264719 +
    ( 292.8075111563232 - 9.978426372534301 * z ) * z ) ) ) +
    y * ( -1778.231237203896 + z * ( 4775.621344883664 +
    z * ( -3621.784567462512 + ( 1826.356460806092 -
    316.49805267936244 * z ) * z ) ) +
    y * ( 1160.5182516851419 + z * ( -3892.3662123519 +
    z * ( 2410.4130980405 + z * ( -1105.446104680304 +
    129.6381336154442 * z ) ) ) +
    y * ( -569.531539542516 + y * ( 128.13429152494615 -
    404.50541014508605 * z ) +
    z * ( 1905.341809925355 + z * ( -668.691951421377 +
    245.11816254543362 * z ) ) ) ) ) ) )

/-- Transcribed from the source: saline polynomial of branch (0,2,0); this branch has no logarithmic term. -/
def g08g020 (x x2 y z : ℝ) : ℝ :=
    x2 * ( 1760.062705994408 + x * ( -86.1329351956084 +
    x * ( -137.1145018408982 + y * ( 296.20061691375236 +
    y * ( -205.67709290374563 + 49.9394019139016 * y ) ) )  +
    z * ( 766.116132004952 + z * ( -108.3834525034224 +
    51.2796974779828 * z ) ) +
    y * ( -60.136422517125 - 2761.9195908075417 * z +
    y * ( 10.50720794170734 + 2814.78225133626 * z ) ) ) +
    y * ( -1351.605895580406 + y * ( 1097.1125373015109 +
    y * ( -433.20648175062206 + 63.905091254154904 * y ) +
    z * ( -3572.7449038462437 + ( 896.713693665072 -
    437.84750280190565 * z ) * z ) ) +
    z * ( 4165.4688847996085 + z * ( -1229.337851789418 +
    ( 681.370187043564 - 66.7696405958478 * z ) * z ) ) ) +
    z * ( -1721.528607567954 + z * ( 674.819060538734 +
    z * ( -356.629112415276 + ( 88.4080716616 -
    15.84003094423364 * z ) * z ) ) ) )

/-- Transcribed from the source: pure-water polynomial of the entropy-part helper. -/
def g03ep (y z : ℝ) : ℝ :=
    ( z * ( -270.983805184062 +
    z * ( 776.153611613101 + z * ( -196.51255088122 + ( 28.9796526294175 -
    2.13290083518327 * z ) * z ) ) ) +
    y * ( -24715.571866078 + z * ( 2910.0729080936 +
    z * ( -1513.116771538718 + z * ( 546.959324647056 + z *
    ( -111.1208127634436 + 8.68841343834394 * z ) ) ) ) +
    y * ( 2210.2236124548363 + z * ( -2017.52334943521 +
    z * ( 1498.081172457456 + z * ( -718.6359919632359 +
    ( 146.4037555781616 - 4.9892131862671505 * z ) * z ) ) ) +
    y * ( -592.743745734632 + z * ( 1591.873781627888 +
    z * ( -1207.261522487504 + ( 608.785486935364 -
    105.4993508931208 * z ) * z ) ) +
    y * ( 290.12956292128547 + z * ( -973.091553087975 +
    z * ( 602.603274510125 + z * ( -276.361526170076 +
    32.40953340386105 * z ) ) ) +
    y * ( -113.90630790850321 + y *
    ( 21.35571525415769 - 67.41756835751434 * z ) +
    z * ( 381.06836198507096 + z * ( -133.7383902842754 +
    49.023632509086724 * z ) ) ) ) ) ) ) )

/-- Transcribed from the source: saline polynomial of the entropy-part helper; the helper has no logarithmic term. -/
def g08ep (x x2 y z : ℝ) : ℝ :=
    x2 * ( z * ( 729.116529735046 +
    z * ( -343.956902961561 + z * ( 124.687671116248 + z * ( -31.656964386073 +
    7.04658803315449 * z ) ) ) ) +
    x * ( x * ( y * ( -137.1145018408982 + y * ( 148.10030845687618 +
    y * ( -68.5590309679152 + 12.4848504784754 * y ) ) ) -
    22.6683558512829 * z ) + z * ( -175.292041186547 +
    ( 83.1923927801819 - 29.483064349429 * z ) * z ) +
    y * ( -86.1329351956084 + z * ( 766.116132004952 +
    z * ( -108.3834525034224 + 51.2796974779828 * z ) ) +
    y * ( -30.0682112585625 - 1380.9597954037708 * z +
    y * ( 3.50240264723578 + 938.26075044542 * z ) ) ) ) +
    y * ( 1760.062705994408 + y * ( -675.802947790203 +
    y * ( 365.7041791005036 + y * ( -108.30162043765552 +
    12.78101825083098 * y ) +
    z * ( -1190.914967948748 + ( 298.904564555024 -
    145.9491676006352 * z ) * z ) ) +
    z * ( 2082.7344423998043 + z * ( -614.668925894709 +
    ( 340.685093521782 - 33.3848202979239 * z ) * z ) ) ) +
    z * ( -1721.528607567954 + z * ( 674.819060538734 +
    z * ( -356.629112415276 + ( 88.4080716616 -
    15.84003094423364 * z ) * z ) ) ) ) )

/-- Transcribed from the source: pure-water polynomial of the gibbs_pt0_pt0 helper. -/
def g03pt0 (y : ℝ) : ℝ :=
    ( -24715.571866078 +
    y * ( 4420.4472249096725 +
    y * ( -1778.231237203896 +
    y * ( 1160.5182516851419 +
    y * ( -569.531539542516 + y * 128.13429152494615) ) ) ) )

/-- Transcribed from the source: saline polynomial of the gibbs_pt0_pt0 helper. -/
def g08pt0 (x x2 y : ℝ) : ℝ :=
    x2 * ( 1760.062705994408 + x * ( -86.1329351956084 +
    x * ( -137.1145018408982 + y * ( 296.20061691375236 +
    y * ( -205.67709290374563 + 49.9394019139016 * y ) ) ) +
    y * ( -60.136422517125 + y * 10.50720794170734 ) ) +
    y * ( -1351.605895580406 + y * ( 1097.1125373015109 +
    y * ( -433.20648175062206 + 63.905091254154904 * y ) ) ) )

/-- Transcribed from the source: collected potential-enthalpy polynomial of pot_enthalpy_from_pt. -/
def potEnthalpyPoly (x x2 y : ℝ) : ℝ :=
    ( 61.01362420681071 + y * ( 168776.46138048015 +
    y * ( -2735.2785605119625 + y * ( 2574.2164453821433 +
    y * ( -1536.6644434977543 + y * ( 545.7340497931629 +
    ( -50.91091728474331 - 18.30489878927802 * y ) * y ) ) ) ) ) +
    x2 * ( 268.5520265845071 + y * ( -12019.028203559312 +
    y * ( 3734.858026725145 + y * ( -2046.7671145057618 +
    y * ( 465.28655623826234 + ( -0.6370820302376359 -
    10.650848542359153 * y ) * y ) ) ) ) +
    x * ( 937.2099110620707 + y * ( 588.1802812170108 +
    y * ( 248.39476522971285 + ( -3.871557904936333 -
    2.6268019854268356 * y ) * y ) ) +
    x * ( -1687.914374187449 + x * ( 246.9598888781377 +
    x * ( 123.59576582457964 - 48.5891069025409 * x ) ) +
    y * ( 936.3206544460336 +
    y * ( -942.7827304544439 + y * ( 369.4389437509002 +
    ( -33.83664947895248 - 9.987880382780322 * y ) * y ) ) ) ) ) ) )

/-- Per-element value of engine branch (0,0,0), transcribed from the
source; for a one-element batch the nonzero_SA test is exactly 0 < SA, and
only then is the saline part (with its logarithmic term) added. -/
noncomputable def gibbs000val (sfac SA t p : ℝ) : ℝ :=
  let x2 := sfac * SA
  let x := Real.sqrt x2
  let y := t * 0.025
  let z := p * 1e-4
  if 0 < SA then
    g03g000 y z + (g08g000 x x2 y z +
      x2 * ( 5812.81456626732 + 851.226734946706 * y ) * Real.log x)
  else g03g000 y z

/-- Per-element value of engine branch (0,1,0), transcribed from the
source; on the nonzero_SA path the result is the combined and scaled
(g03 + g08) * 0.025, on the other path the source returns g03 alone. -/
noncomputable def gibbs010val (sfac SA t p : ℝ) : ℝ :=
  let x2 := sfac * SA
  let x := Real.sqrt x2
  let y := t * 0.025
  let z := p * 1e-4
  if 0 < SA then
    (g03g010 y z + (g08g010 x x2 y z +
      851.226734946706 * x2 * Real.log x)) * 0.025
  else g03g010 y z

/-- Spec-side definition for the refinement claim on branch (0,1,0): both
sub-expressions are evaluated and then combined and scaled, the
logarithmic term contributing zero wherever salinity is not strictly
positive, exactly as the specification describes the unoptimized
algorithm. -/
noncomputable def gibbs010Unopt (sfac SA t p : ℝ) : ℝ :=
  let x2 := sfac * SA
  let x := Real.sqrt x2
  let y := t * 0.025
  let z := p * 1e-4
  (g03g010 y z + (g08g010 x x2 y z +
    (if 0 < SA then 851.226734946706 * x2 * Real.log x else 0))) * 0.025

/-- Per-element value of engine branch (0,2,0), transcribed from the
source; this branch has no logarithmic term and its saline part is only
evaluated on the nonzero_SA path. -/
noncomputable def gibbs020val (sfac SA t p : ℝ) : ℝ :=
  let x2 := sfac * SA
  let x := Real.sqrt x2
  let y := t * 0.025
  let z := p * 1e-4
  if 0 < SA then (g03g020 y z + g08g020 x x2 y z) * 0.000625
  else g03g020 y z * 0.000625

/-- Per-element value of the entropy-part helper (entropy except the terms
that depend on SA alone), transcribed from the source. -/
noncomputable def entropyPartVal (sfac SA t p : ℝ) : ℝ :=
  let x2 := sfac * SA
  let x := Real.sqrt x2
  let y := t * 0.025
  let z := p * 1e-4;
  -(g03ep y z + g08ep x x2 y z) * 0.025

/-- Per-element value of the gibbs_pt0_pt0 helper (second temperature
derivative of the Gibbs function at zero sea pressure), transcribed. -/
noncomputable def gibbsPt0Pt0Val (sfac SA pt0 : ℝ) : ℝ :=
  let x2 := sfac * SA
  let x := Real.sqrt x2
  let y := pt0 * 0.025
  (g03pt0 y + g08pt0 x x2 y) * 0.000625

/-- Per-element value of pot_enthalpy_from_pt, transcribed. -/
noncomputable def potEnthalpyFromPt (sfac SA pt : ℝ) : ℝ :=
  let x2 := sfac * SA
  let x := Real.sqrt x2
  let y := pt * 0.025
  potEnthalpyPoly x x2 y

/-- CT_from_pt, transcribed: potential enthalpy divided by the reference
heat capacity cp0 (a parameter here, since the constants module is not
among the sources). -/
noncomputable def CTfromPt (sfac cp0 SA pt : ℝ) : ℝ :=
  potEnthalpyFromPt sfac SA pt / cp0

/-- entropy_from_t with t_type pt, transcribed: minus the engine branch
(0,1,0) at zero pressure. -/
noncomputable def entropyFromT (sfac SA t : ℝ) : ℝ := -(gibbs010val sfac SA t 0)

/-- potential_t, transcribed from the source: negative salinity is clamped
to zero, a rational-function initial estimate and an ideal-gas initial
Jacobian are formed, then exactly two corrector passes run; each pass
takes the entropy-part discrepancy, applies a half-way Newton update,
re-evaluates the Jacobian at the midpoint with the engine's (0,2,0)
branch and re-applies the Newton step from the pass's original estimate,
which is the iterate carried on. -/
noncomputable def potentialT (sfac SSO cp0 : ℝ) (SA t p pr : ℝ) : ℝ :=
  let SA := if SA < 0 then 0 else SA
  let s1 := SA * 35 / SSO
  let pt := t + (p - pr) * ( 8.65483913395442e-6 -
    s1 * 1.41636299744881e-6 -
    (p + pr) * 7.38286467135737e-9 +
    t * ( -8.38241357039698e-6 +
    s1 * 2.83933368585534e-8 +
    t * 1.77803965218656e-8 +
    (p + pr) * 1.71155619208233e-10 ) )
  let dentropy_dt := cp0 / ((Kelvin + pt) * (1 - 0.05 * (1 - SA / SSO)))
  let true_entropy_part := entropyPartVal sfac SA t p
  let step := fun (s : ℝ × ℝ) =>
    let pt_old := s.1
    let dentropy := entropyPartVal sfac SA pt_old pr - true_entropy_part
    let pt1 := pt_old - dentropy / s.2
    let ptm := 0.5 * (pt1 + pt_old)
    let dd2 := -(gibbs020val sfac SA ptm pr)
    (pt_old - dentropy / dd2, dd2)
  (step (step (pt, dentropy_dt))).1

/-- One pass of the t_from_entropy corrector loop, transcribed from the
source.  The state is (pt, dentropy_dt, t).  The pass computes the
entropy discrepancy at the incoming iterate pt, the half-way Newton
update, the midpoint Jacobian, and the re-applied Newton step; the source
assigns the half-way update to pt (the iterate that the next pass reads)
and the re-applied update to t (read only after the loop). -/
noncomputable def tfeStep (sfac : ℝ) (SA entropy : ℝ) (s : ℝ × ℝ × ℝ) :
    ℝ × ℝ × ℝ :=
  let pt_old := s.1
  let dentropy := entropyFromT sfac SA pt_old - entropy
  let pt1 := pt_old - dentropy / s.2.1
  let ptm := 0.5 * (pt1 + pt_old)
  let dd2 := -(gibbsPt0Pt0Val sfac SA ptm)
  (pt1, dd2, pt_old - dentropy / dd2)

/-- t_from_entropy, transcribed from the source: negative salinity is
clamped, the initial estimate inverts the salinity-only entropy terms in
closed form, then exactly three corrector passes run; the returned value
is the final re-applied update t (converted to Conservative Temperature
when isCT is set), while the iterate carried between passes is the
half-way value.  The initial third state component is never read. -/
noncomputable def tFromEntropy (sfac SSO cp0 : ℝ) (SA entropy : ℝ) (isCT : Bool) : ℝ :=
  let SA := if SA < 0 then 0 else SA
  let part1 := 1 - SA / SSO
  let part2 := 1 - 0.05 * part1
  let ent_SA := (cp0 / Kelvin) * part1 * (1 - 1.01 * part1)
  let c := (entropy - ent_SA) * part2 / cp0
  let pt := Kelvin * (Real.exp c - 1)
  let dentropy_dt := cp0 / ((Kelvin + pt) * part2)
  let s := tfeStep sfac SA entropy (tfeStep sfac SA entropy
    (tfeStep sfac SA entropy (pt, dentropy_dt, pt)))
  if isCT then CTfromPt sfac cp0 SA s.2.2 else s.2.2

/-- The amended description of t_from_entropy, written out pass by pass:
in every pass the half-way Newton update is the iterate carried into the
next pass, the re-applied update is computed and discarded, and the
re-applied update of the third pass is what is returned (converted to
Conservative Temperature when isCT is set). -/
noncomputable def tFromEntropyDescr (sfac SSO cp0 : ℝ) (SA entropy : ℝ) (isCT : Bool) :
    ℝ :=
  let SA := if SA < 0 then 0 else SA
  let part1 := 1 - SA / SSO
  let part2 := 1 - 0.05 * part1
  let ent_SA := (cp0 / Kelvin) * part1 * (1 - 1.01 * part1)
  let c := (entropy - ent_SA) * part2 / cp0
  let pt0 := Kelvin * (Real.exp c - 1)
  let d0 := cp0 / ((Kelvin + pt0) * part2)
  let e1 := entropyFromT sfac SA pt0 - entropy
  let half1 := pt0 - e1 / d0
  let d1 := -(gibbsPt0Pt0Val sfac SA (0.5 * (half1 + pt0)))
  let _reapplied1 := pt0 - e1 / d1
  let e2 := entropyFromT sfac SA half1 - entropy
  let half2 := half1 - e2 / d1
  let d2 := -(gibbsPt0Pt0Val sfac SA (0.5 * (half2 + half1)))
  let _reapplied2 := half1 - e2 / d2
  let e3 := entropyFromT sfac SA half2 - entropy
  let half3 := half2 - e3 / d2
  let d3 := -(gibbsPt0Pt0Val sfac SA (0.5 * (half3 + half2)))
  let reapplied3 := half2 - e3 / d3
  if isCT then CTfromPt sfac cp0 SA reapplied3 else reapplied3

/-- Helper: gibbsMask never fails on a supported triple. -/
theorem gibbsMask_ok_of_supported (ns nt npr : ℕ) (b : Batch)
    (h : (ns, nt, npr) ∈ supportedTriples) :
    ∃ ms, gibbsMask ns nt npr b = .ok ms := by
  simp only [supportedTriples, List.mem_cons, List.not_mem_nil, or_false,
    Prod.mk.injEq] at h
  unfold gibbsMask
  rcases h with h | h | h | h | h | h | h | h | h | h <;>
    obtain ⟨h1, h2, h3⟩ := h <;> subst h1 <;> subst h2 <;> subst h3 <;> simp

/-- C2: the engine raises its invalid-combination error exactly on the
derivative-order triples outside the ten supported combinations, and never
on a supported one. -/
theorem gibbs_dispatch_error_iff (ns nt npr : ℕ) (b : Batch) :
    (∃ msg, gibbsMask ns nt npr b = .error msg) ↔
      (ns, nt, npr) ∉ supportedTriples := by
  constructor
  · rintro ⟨msg, hmsg⟩ hmem
    obtain ⟨ms, hms⟩ := gibbsMask_ok_of_supported ns nt npr b hmem
    rw [hms] at hmsg
    exact Except.noConfusion hmsg
  · intro hmem
    refine ⟨"Wrong Combination of order/variables", ?_⟩
    simp only [supportedTriples, List.mem_cons, List.not_mem_nil, or_false,
      Prod.mk.injEq, not_or] at hmem
    obtain ⟨h1, h2, h3, h4, h5, h6, h7, h8, h9, h10⟩ := hmem
    unfold gibbsMask
    rw [if_neg, if_neg, if_neg, if_neg, if_neg, if_neg, if_neg, if_neg,
      if_neg, if_neg] <;> tauto

/-- C1 counterexample: the claim asserts that for every derivative order
with a salinity derivative (including (1,0,1) and (2,0,0)) an element with
SA equal to zero is returned undefined, and that a batch whose SA is
nonpositive everywhere yields an entirely undefined output.  On the
single-element batch SA = 0, t = 0, p = 0 the engine's (1,0,1) and (2,0,0)
branches return a defined (unmasked, finite) element instead: those two
branches never set all_masked and the element is not masked. -/
theorem gibbs_sa_deriv_zero_defined_cx :
    gibbsMask 1 0 1 [(some 0, some 0, some 0)] = .ok [false] ∧
    gibbsMask 2 0 0 [(some 0, some 0, some 0)] = .ok [false] ∧
    (false : Bool) ≠ true := by
  refine ⟨by rfl, by rfl, by simp⟩

/-- C4 counterexample: the claim asserts that whether the engine reports an
element as defined does not depend on the SA values of the other elements
of the batch.  The element (SA = 0, t = 20, p = 10) is reported undefined
inside the batch that also holds SA = 35 (nonzero_SA holds, so SA = 0 is
masked), but the same element is reported defined when evaluated as a
single-element batch. -/
theorem gibbs_elementwise_cx :
    gibbsMask 0 0 0 [(some 0, some 20, some 10), (some 35, some 20, some 10)]
      = .ok [true, false] ∧
    gibbsMask 0 0 0 [(some 0, some 20, some 10)] = .ok [false] ∧
    (true : Bool) ≠ false := by
  refine ⟨by rfl, by rfl, by simp⟩

/-- C5 counterexample: the claim asserts that every core operation treats a
negative-SA element by clamping it to zero, returning at that element the
result of the same call with SA = 0 and never reporting it undefined for
being negative.  In the engine, the single-element call with SA = -1
returns an undefined (masked) element while the same call with SA = 0
returns a defined one, so the two results differ and the negative element
is reported undefined on account of its sign. -/
theorem gibbs_negative_sa_cx :
    gibbsMask 0 0 0 [(some (-1), some 20, some 10)] = .ok [true] ∧
    gibbsMask 0 0 0 [(some 0, some 20, some 10)] = .ok [false] ∧
    (Except.ok [true] : Except String (List Bool)) ≠ .ok [false] := by
  refine ⟨by rfl, by rfl, by simp⟩

/-- Helper: when the batch holds an unmasked nonpositive salinity entry,
the nonzero_SA test of the engine coincides with the existence of a
strictly positive unmasked salinity entry somewhere in the batch. -/
theorem nonzeroSA_eq_anyPosSA (b : Batch) (v : ℚ) (tx px : Option ℚ)
    (hmem : (some v, tx, px) ∈ b) :
    nonzeroSA b = anyPosSA b := by
  have hvmem : (some v : Option ℚ) ∈ saCol b := by
    exact List.mem_map_of_mem (fun e => e.1) hmem
  cases hpos : anyPosSA b with
  | true =>
    obtain ⟨x, hx, hx2⟩ := List.any_eq_true.mp hpos
    obtain ⟨w, hw, hw2⟩ : ∃ w, x = some w ∧ 0 < w := by
      cases x with
      | none => simp at hx2
      | some w => exact ⟨w, rfl, by simpa using hx2⟩
    subst hw
    have hallnp : allNonpos (saCol b) = false := by
      rcases hall : allNonpos (saCol b) with _ | _
      · rfl
      · have := List.all_eq_true.mp hall (some w) hx
        simp at this
        exact absurd hw2 (not_lt.mpr this)
    unfold nonzeroSA
    rw [hallnp]
    simp only [Bool.and_false, Bool.or_false, Bool.not_eq_eq_eq_not,
      Bool.not_true]
    cases b with
    | nil => simp at hmem
    | cons e tl =>
      cases tl with
      | cons e2 tl2 =>
        obtain ⟨u, t2, p2⟩ := e
        cases u <;> rfl
      | nil =>
        obtain ⟨u, t2, p2⟩ := e
        have hxe : (some w : Option ℚ) = u := by
          simpa [saCol] using hx
        cases u with
        | none => exact absurd hxe.symm (by simp)
        | some u =>
          have : w = u := by simpa using hxe
          subst this
          simp [decide_eq_false (not_le.mpr hw2)]
  | false =>
    have hallnp : allNonpos (saCol b) = true := by
      apply List.all_eq_true.mpr
      intro x hx
      cases x with
      | none => simp
      | some w =>
        rcases le_or_lt w 0 with h | h
        · simpa using h
        · exfalso
          have : anyPosSA b = true := by
            apply List.any_eq_true.mpr
            exact ⟨some w, hx, by simpa using h⟩
          rw [this] at hpos
          exact Bool.noConfusion hpos
    have hsm : anySome (saCol b) = true := by
      apply List.any_eq_true.mpr
      exact ⟨some v, hvmem, rfl⟩
    unfold nonzeroSA
    rw [hallnp, hsm]
    simp

/-- C1 amended: for the (1,0,0) and (1,1,0) branches, every element with
nonpositive SA is reported undefined; for the (1,0,1) and (2,0,0) branches
(which never set all_masked) such an element is reported undefined exactly
when its SA is strictly negative or some element of the batch has strictly
positive SA — in particular an all-nonpositive batch yields a defined,
finite value at every SA = 0 element of those two branches. -/
theorem gibbs_sa_deriv_mask_amended (b : Batch) (i : ℕ) (v tv pv : ℚ)
    (hb : b[i]? = some (some v, some tv, some pv)) (hv : v ≤ 0) :
    (∃ ms, gibbsMask 1 0 0 b = .ok ms ∧ ms[i]? = some true) ∧
    (∃ ms, gibbsMask 1 1 0 b = .ok ms ∧ ms[i]? = some true) ∧
    (∃ ms, gibbsMask 1 0 1 b = .ok ms ∧
      (ms[i]? = some true ↔ (v < 0 ∨ anyPosSA b = true))) ∧
    (∃ ms, gibbsMask 2 0 0 b = .ok ms ∧
      (ms[i]? = some true ↔ (v < 0 ∨ anyPosSA b = true))) := by
  have hmem : (some v, some tv, some pv) ∈ b := List.getElem?_mem hb
  have hnz : nonzeroSA b = anyPosSA b := nonzeroSA_eq_anyPosSA b v _ _ hmem
  have hmask : ∀ nz : Bool,
      elemMask nz (some v, some tv, some pv) =
        (decide (v < 0) || (nz && decide (v ≤ 0))) := by
    intro nz
    cases nz <;> simp [elemMask, maskedSAElem, hv]
  have hall : ∀ ms : List Bool, ms = b.map (elemMask (nonzeroSA b)) →
      (ms[i]? = some true ↔ (v < 0 ∨ anyPosSA b = true)) := by
    intro ms hms
    subst hms
    rw [List.getElem?_map, hb]
    simp only [Option.map_some']
    rw [hmask, hnz]
    constructor
    · intro h
      have h2 := Option.some.inj h
      rcases Bool.or_eq_true_iff.mp h2 with h3 | h3
      · exact Or.inl (by simpa using h3)
      · exact Or.inr (Bool.and_eq_true_iff.mp h3).1
    · rintro (h | h)
      · simp [decide_eq_true h]
      · simp [h, decide_eq_true hv]
  refine ⟨?_, ?_, ?_, ?_⟩
  · cases hnz2 : nonzeroSA b with
    | false =>
      refine ⟨b.map (fun _ => true), by simp [gibbsMask, hnz2], ?_⟩
      rw [List.getElem?_map, hb]
      rfl
    | true =>
      refine ⟨b.map (elemMask (nonzeroSA b)), by simp [gibbsMask, hnz2], ?_⟩
      rw [List.getElem?_map, hb]
      simp only [Option.map_some']
      rw [hmask, hnz2]
      simp [decide_eq_true hv]
  · cases hnz2 : nonzeroSA b with
    | false =>
      refine ⟨b.map (fun _ => true), by simp [gibbsMask, hnz2], ?_⟩
      rw [List.getElem?_map, hb]
      rfl
    | true =>
      refine ⟨b.map (elemMask (nonzeroSA b)), by simp [gibbsMask, hnz2], ?_⟩
      rw [List.getElem?_map, hb]
      simp only [Option.map_some']
      rw [hmask, hnz2]
      simp [decide_eq_true hv]
  · exact ⟨b.map (elemMask (nonzeroSA b)), by simp [gibbsMask],
      hall _ rfl⟩
  · exact ⟨b.map (elemMask (nonzeroSA b)), by simp [gibbsMask],
      hall _ rfl⟩

/-- C1 amended, instantiated at a concrete batch. -/
theorem gibbs_sa_deriv_mask_amended_witness :
    ∃ ms, gibbsMask 1 0 0 [((some 0 : Option ℚ), some 0, some 0)] = .ok ms ∧
      ms[0]? = some true :=
  (gibbs_sa_deriv_mask_amended [(some 0, some 0, some 0)] 0 0 0 0 rfl
    le_rfl).1

/-- C4 amended: the engine's per-element result mask is a function of the
element's own inputs, the derivative order and the single batch-level
nonzero_SA bit only: two batches that agree on the nonzero_SA test give
the same definedness to a common element, wherever it sits in either
batch.  (Full elementwise independence fails: the nonzero_SA bit itself
depends on the other elements, as the counterexample shows.) -/
theorem gibbs_elementwise_mod_nz (ns nt npr : ℕ)
    (hsup : (ns, nt, npr) ∈ supportedTriples)
    (b₁ b₂ : Batch) (i j : ℕ) (e : BatchElem)
    (h1 : b₁[i]? = some e) (h2 : b₂[j]? = some e)
    (hnz : nonzeroSA b₁ = nonzeroSA b₂) :
    ∃ ms₁ ms₂, gibbsMask ns nt npr b₁ = .ok ms₁ ∧
      gibbsMask ns nt npr b₂ = .ok ms₂ ∧ ms₁[i]? = ms₂[j]? := by
  have helem : ∀ (nz : Bool) (b : Batch) (k : ℕ), b[k]? = some e →
      (b.map (elemMask nz))[k]? = some (elemMask nz e) := by
    intro nz b k hk
    rw [List.getElem?_map, hk]
    rfl
  have hconst : ∀ (b : Batch) (k : ℕ), b[k]? = some e →
      (b.map (fun _ => (true : Bool)))[k]? = some true := by
    intro b k hk
    rw [List.getElem?_map, hk]
    rfl
  have hplain : ∀ f : Batch → Except String (List Bool),
      (∀ b : Batch, f b = .ok (b.map (elemMask (nonzeroSA b)))) →
      ∃ ms₁ ms₂, f b₁ = .ok ms₁ ∧ f b₂ = .ok ms₂ ∧ ms₁[i]? = ms₂[j]? := by
    intro f hf
    refine ⟨_, _, hf b₁, hf b₂, ?_⟩
    rw [helem _ _ _ h1, helem _ _ _ h2, hnz]
  have hgated : ∀ f : Batch → Except String (List Bool),
      (∀ b : Batch, f b = .ok (if nonzeroSA b then b.map
        (elemMask (nonzeroSA b)) else b.map (fun _ => true))) →
      ∃ ms₁ ms₂, f b₁ = .ok ms₁ ∧ f b₂ = .ok ms₂ ∧ ms₁[i]? = ms₂[j]? := by
    intro f hf
    refine ⟨_, _, hf b₁, hf b₂, ?_⟩
    cases hc : nonzeroSA b₁ with
    | true =>
      have hc2 : nonzeroSA b₂ = true := hnz.symm.trans hc
      rw [hc2, if_pos rfl, if_pos rfl, helem _ _ _ h1, helem _ _ _ h2]
    | false =>
      have hc2 : nonzeroSA b₂ = false := hnz.symm.trans hc
      rw [hc2, if_neg (by simp), if_neg (by simp),
        hconst _ _ h1, hconst _ _ h2]
  simp only [supportedTriples, List.mem_cons, List.not_mem_nil, or_false,
    Prod.mk.injEq] at hsup
  rcases hsup with h | h | h | h | h | h | h | h | h | h <;>
    obtain ⟨ha, hb, hc⟩ := h <;> subst ha <;> subst hb <;> subst hc
  · exact hplain _ (fun b => rfl)
  · exact hgated _ (fun b => rfl)
  · exact hplain _ (fun b => rfl)
  · exact hplain _ (fun b => rfl)
  · exact hgated _ (fun b => rfl)
  · exact hplain _ (fun b => rfl)
  · exact hplain _ (fun b => rfl)
  · exact hplain _ (fun b => rfl)
  · exact hplain _ (fun b => rfl)
  · exact hplain _ (fun b => rfl)

/-- C4 amended, instantiated at a concrete pair of batches sharing an
element and agreeing on the nonzero_SA test. -/
theorem gibbs_elementwise_mod_nz_witness :
    ∃ ms₁ ms₂,
      gibbsMask 0 0 0 [((some 35 : Option ℚ), some 1, some 2),
        (some 3, some 4, some 5)] = .ok ms₁ ∧
      gibbsMask 0 0 0 [((some 35 : Option ℚ), some 1, some 2)] = .ok ms₂ ∧
      ms₁[0]? = ms₂[0]? :=
  gibbs_elementwise_mod_nz 0 0 0 (by simp [supportedTriples])
    [(some 35, some 1, some 2), (some 3, some 4, some 5)]
    [(some 35, some 1, some 2)] 0 0 (some 35, some 1, some 2) rfl rfl rfl

/-- C10: whenever the Baltic branch of SP_from_Sstar is taken, its
overwrite of SP references the name indsbaltic, which is bound neither in
the function's scope nor at module level (its only binding in the source
is a local of the distinct function SA_Sstar_from_SP), so the line fails
with a NameError instead of returning normally — refuting the claim that
the overwrite references only in-scope variables. -/
theorem sp_from_sstar_baltic_name_error :
    "indsbaltic" ∉ spFromSstarLocals ∧
    "indsbaltic" ∉ gibbsModuleNames ∧
    spFromSstarBalticOverwrite =
      .error "NameError: name indsbaltic is not defined" := by
  refine ⟨by decide, by decide, by rfl⟩

/-- C7: the potential-temperature solver is exactly idempotent at its own
pressure: with pr = p the rational-function initial estimate collapses to
t because the p - pr factor vanishes, and in both corrector passes the
entropy-part discrepancy is the difference of two identical evaluations,
so every Newton correction is exactly zero. -/
theorem potential_t_idempotent (sfac SSO cp0 SA t p : ℝ) :
    potentialT sfac SSO cp0 SA t p p = t := by
  simp [potentialT]

/-- C3: for the (0,1,0) branch on an all-nonpositive batch the source's
skip of the saline branch is not semantics-preserving: at SA = 0, t = 40,
p = 0 the code returns the unscaled g03 while the unoptimized
combine-and-scale evaluation (the saline polynomial and its logarithmic
term both vanishing at zero salinity) yields 0.025 times g03, a value
smaller by a factor of forty; the source's own nonzero-salinity path and
its entropy-part helper both apply the 0.025 scale, so the missing factor
on the skip path is a slip in the code. -/
theorem gibbs010_nonpos_unscaled (sfac : ℝ) :
    gibbs010val sfac 0 40 0 = g03g010 1 0 ∧
    gibbs010val sfac 0 40 0 ≠ gibbs010Unopt sfac 0 40 0 := by
  constructor
  · norm_num [gibbs010val]
  · norm_num [gibbs010val, gibbs010Unopt, g08g010, g03g010]

/-- C5 amended: negative salinity never raises, but it is clamped to zero
only in the iterative solvers (potential_t shown here: a negative SA gives
exactly the result of the same call with SA = 0); the engine instead
reports each strictly negative SA element as undefined (masked), and the
strip_mask helper of the closed-form routines likewise masks such an
element while substituting zero as its placeholder value. -/
theorem negative_sa_handling :
    (∀ sfac SSO cp0 SA t p pr : ℝ, SA < 0 →
      potentialT sfac SSO cp0 SA t p pr = potentialT sfac SSO cp0 0 t p pr) ∧
    (∀ (b : Batch) (i : ℕ) (v tv pv : ℚ),
      b[i]? = some (some v, some tv, some pv) → v < 0 →
      ∃ ms, gibbsMask 0 0 0 b = .ok ms ∧ ms[i]? = some true) ∧
    (∀ (t2 p2 : Option ℚ) (v : ℚ), v < 0 →
      (stripElem (some v) t2 p2).2.2.2 = true ∧
      (stripElem (some v) t2 p2).1 = 0) := by
  refine ⟨?_, ?_, ?_⟩
  · intro sfac SSO cp0 SA t p pr h
    simp [potentialT, h]
  · intro b i v tv pv hb hv
    refine ⟨b.map (elemMask (nonzeroSA b)), rfl, ?_⟩
    rw [List.getElem?_map, hb]
    have hm : ∀ nz : Bool, elemMask nz (some v, some tv, some pv) = true := by
      intro nz
      cases nz <;> simp [elemMask, maskedSAElem, hv, le_of_lt hv]
    rw [Option.map_some', hm]
  · intro t2 p2 v hv
    constructor <;> simp [stripElem, hv]

/-- C5 amended, instantiated: the solver clamp at SA = -1. -/
theorem negative_sa_handling_witness :
    potentialT 1 1 1 (-1) 0 0 0 = potentialT 1 1 1 0 0 0 0 :=
  negative_sa_handling.1 1 1 1 (-1) 0 0 0 neg_one_lt_zero

/-- C8 amended: t_from_entropy is exactly the unrolled three-pass
description in which every pass carries its half-way Newton update into
the next pass and only the final pass's re-applied update is returned. -/
theorem t_from_entropy_descr_equiv (sfac SSO cp0 SA entropy : ℝ)
    (isCT : Bool) :
    tFromEntropy sfac SSO cp0 SA entropy isCT =
      tFromEntropyDescr sfac SSO cp0 SA entropy isCT := by
  rfl

/-- C8 counterexample: the claim asserts that each corrector pass of
t_from_entropy carries its fully re-applied Newton update (not the
half-way value) into the next pass.  On the call with sfac = 1, SSO = 1,
cp0 = 273.15, SA = 0 and entropy = -0.01 the initial state is exactly
(0, 20/19, 0) (the closed-form inversion gives pt = 0), and in the first
corrector pass the iterate actually carried on (the half-way update, the
first state component) differs from the re-applied update (the third
component), so the claim fails at this input. -/
theorem tfe_carry_cx :
    tFromEntropy 1 1 273.15 0 (-0.01) false =
      (tfeStep 1 0 (-0.01) (tfeStep 1 0 (-0.01)
        (tfeStep 1 0 (-0.01) (0, 20/19, 0)))).2.2 ∧
    (tfeStep 1 0 (-0.01) (0, 20/19, 0)).1 ≠
      (tfeStep 1 0 (-0.01) (0, 20/19, 0)).2.2 := by
  constructor
  · simp only [tFromEntropy]
    norm_num [Kelvin, Real.exp_zero]
  · norm_num [tfeStep, entropyFromT, gibbs010val, gibbsPt0Pt0Val,
      g03g010, g03pt0, g08pt0, Real.sqrt_zero]

/-- C9 counterexample: the claim asserts that in exact real arithmetic the
collected potential-enthalpy polynomial equals the engine expression
g(0,0,0) - (273.15 + pt) * g(0,1,0) for every SA > 0.  At the scale
factor 1, SA = 1 and pt = 0 (where the square root is one and the
logarithmic terms vanish) the two sides are unequal rationals: the
collected coefficients are rounded, so the refinement is exact only to
machine precision. -/
theorem pot_enthalpy_engine_cx :
    potEnthalpyFromPt 1 1 0 ≠
      gibbs000val 1 1 0 0 - (273.15 + 0) * gibbs010val 1 1 0 0 := by
  norm_num [potEnthalpyFromPt, gibbs000val, gibbs010val, potEnthalpyPoly,
    g03g000, g08g000, g03g010, g08g010, Real.sqrt_one, Real.log_one]

/-- C9 amended: cp0 times CT_from_pt equals the collected
potential-enthalpy polynomial exactly (CT is defined as that polynomial
divided by cp0), while the polynomial agrees with the engine expression
g(0,0,0) - (273.15 + pt) * g(0,1,0) only to machine precision (the
residual at the counterexample point is nonzero yet below 1e-9). -/
theorem pot_enthalpy_refinement_amended :
    (∀ sfac cp0 SA pt : ℝ, cp0 ≠ 0 →
      cp0 * CTfromPt sfac cp0 SA pt = potEnthalpyFromPt sfac SA pt) ∧
    |potEnthalpyFromPt 1 1 0 -
      (gibbs000val 1 1 0 0 - (273.15 + 0) * gibbs010val 1 1 0 0)| <
      1e-9 := by
  constructor
  · intro sfac cp0 SA pt h
    rw [CTfromPt]
    field_simp
  · rw [abs_sub_lt_iff]
    constructor <;>
      norm_num [potEnthalpyFromPt, gibbs000val, gibbs010val,
        potEnthalpyPoly, g03g000, g08g000, g03g010, g08g010,
        Real.sqrt_one, Real.log_one]

/-- C9 amended, instantiated at cp0 = 1. -/
theorem pot_enthalpy_refinement_amended_witness :
    (1 : ℝ) * CTfromPt 1 1 1 0 = potEnthalpyFromPt 1 1 0 :=
  pot_enthalpy_refinement_amended.1 1 1 1 0 one_ne_zero

end Seawater
